import Mathlib

/-!
Shallow embedding of src/sys/aio.rs: POSIX AIO wrappers around libc.

Modelling conventions:
- A native libc call is external: its integer return value (and the thread
  errno consulted when that value is -1) are passed to the embedded function
  as explicit parameters `ret` and `errno`.
- A Rust panic (a failed assert! or an unreachable match arm) is modelled as
  Option.none; a normal return is Option.some.
- Pointers are modelled as abstract addresses of type Nat, with 0 standing
  for the null pointer.
- Platform constants carry the Linux values of the libc crate.
-/

namespace NixAio

/-- libc AIO_CANCELED, Linux value. -/
def libc_AIO_CANCELED : Int := 0

/-- libc AIO_NOTCANCELED, Linux value. -/
def libc_AIO_NOTCANCELED : Int := 1

/-- libc AIO_ALLDONE, Linux value. -/
def libc_AIO_ALLDONE : Int := 2

/-- libc LIO_READ, Linux value. -/
def libc_LIO_READ : Int := 0

/-- libc LIO_WRITE, Linux value. -/
def libc_LIO_WRITE : Int := 1

/-- libc LIO_NOP, Linux value. -/
def libc_LIO_NOP : Int := 2

/-- LioOpcode from the libc_enum block: determines what lio_listio does with
an individual aiocb. -/
inductive LioOpcode
  | LIO_NOP
  | LIO_WRITE
  | LIO_READ
  deriving DecidableEq, Repr

/-- Discriminant of the libc_enum: each variant equals the libc constant of
the same name. -/
def LioOpcode.toInt : LioOpcode → Int
  | .LIO_NOP => libc_LIO_NOP
  | .LIO_WRITE => libc_LIO_WRITE
  | .LIO_READ => libc_LIO_READ

/-- Return values for AioCb::cancel and aio_cancel_all. -/
inductive AioCancelStat
  | AioCanceled
  | AioNotCanceled
  | AioAllDone
  deriving DecidableEq, Repr

/-- Mode for AioCb::fsync. -/
inductive AioFsyncMode
  | O_SYNC
  | O_DSYNC
  deriving DecidableEq, Repr

/-- Model of a bytes-crate buffer (Bytes or BytesMut): a heap address, a
capacity and the byte contents.  The allocator is an external collaborator;
the model records exactly what the aio module relies on: the address handed
to the kernel, the length and the contents. -/
structure Bytes where
  addr : Nat
  cap : Nat
  data : List Nat
  deriving DecidableEq, Repr

/-- Bytes::len / BytesMut::len. -/
def Bytes.len (b : Bytes) : Nat := b.data.length

/-- Bytes::with_capacity / BytesMut::with_capacity: a fresh empty buffer at a
fresh out-of-line address with the given capacity. -/
def Bytes.with_capacity (freshAddr : Nat) (c : Nat) : Bytes :=
  { addr := freshAddr, cap := c, data := [] }

/-- extend_from_slice: appends the bytes, growing capacity when needed.  In
every use in this module the extension fits the requested capacity, so the
address does not move. -/
def Bytes.extend_from_slice (b : Bytes) (s : List Nat) : Bytes :=
  { addr := b.addr, cap := max b.cap (b.data.length + s.length), data := b.data ++ s }

/-- A borrowed Rust slice: the address of the borrowed memory and its
contents. -/
structure Slice where
  addr : Nat
  data : List Nat
  deriving DecidableEq, Repr

/-- Buffer: owns (uniquely or shared) a memory buffer to keep it from being
dropped while the kernel holds a pointer to it.  phantom models
Buffer::Phantom, the lifetime-only marker for a borrowed slice. -/
inductive Buffer
  | none
  | bytes (b : Bytes)
  | bytesMut (b : Bytes)
  | phantom
  deriving DecidableEq, Repr

/-- The fields of the native libc aiocb that this module reads or writes.
common_init zeroes the whole struct, so every field starts at zero.  The
sigevent is opaque to this module and modelled as a Nat passed through. -/
structure Aiocb where
  aio_fildes : Int
  aio_offset : Int
  aio_nbytes : Nat
  aio_buf : Nat
  aio_lio_opcode : Int
  aio_reqprio : Int
  aio_sigevent : Nat
  deriving DecidableEq, Repr

/-- AioCb::common_init: a zeroed aiocb with the descriptor, the priority and
the (opaque) sigevent filled in. -/
def common_init (fd : Int) (prio : Int) (sigev_notify : Nat) : Aiocb :=
  { aio_fildes := fd, aio_offset := 0, aio_nbytes := 0, aio_buf := 0,
    aio_lio_opcode := 0, aio_reqprio := prio, aio_sigevent := sigev_notify }

/-- AioCb: one I/O request.  mutable tracks whether the buffer pointed to by
aiocb.aio_buf may be written into; in_progress tracks possible in-kernel
state; buffer keeps owned buffers from being dropped. -/
structure AioCb where
  aiocb : Aiocb
  mutable : Bool
  in_progress : Bool
  buffer : Buffer
  deriving DecidableEq, Repr

/-- AioCb::from_fd: no associated buffer; offset and length zero, null
buffer pointer. -/
def from_fd (fd : Int) (prio : Int) (sigev_notify : Nat) : AioCb :=
  let a := common_init fd prio sigev_notify
  { aiocb :=
      { a with
        aio_offset := 0
        aio_nbytes := 0
        aio_buf := 0 }
    mutable := false
    in_progress := false
    buffer := Buffer.none }

/-- AioCb::from_mut_slice: zero-copy from a borrowed mutable slice; marked
mutable and holding the Phantom lifetime marker. -/
def from_mut_slice (fd : Int) (offs : Int) (buf : Slice) (prio : Int)
    (sigev_notify : Nat) (opcode : LioOpcode) : AioCb :=
  let a := common_init fd prio sigev_notify
  { aiocb :=
      { a with
        aio_offset := offs
        aio_nbytes := buf.data.length
        aio_buf := buf.addr
        aio_lio_opcode := opcode.toInt }
    mutable := true
    in_progress := false
    buffer := Buffer.phantom }

/-- The buf2 computation shared by from_bytes and from_bytes_mut: a buffer
shorter than 64 bytes is reallocated (with_capacity 64 followed by
extend_from_slice) to force out-of-line storage; freshAddr models the
address of that fresh allocation. -/
def realloc_small (buf : Bytes) (freshAddr : Nat) : Bytes :=
  if buf.len < 64 then
    (Bytes.with_capacity freshAddr 64).extend_from_slice buf.data
  else buf

/-- AioCb::from_bytes: takes ownership of a shared immutable Bytes buffer,
reallocating small buffers before the address is captured. -/
def from_bytes (fd : Int) (offs : Int) (buf : Bytes) (prio : Int)
    (sigev_notify : Nat) (opcode : LioOpcode) (freshAddr : Nat) : AioCb :=
  let buf2 := realloc_small buf freshAddr
  let a := common_init fd prio sigev_notify
  { aiocb :=
      { a with
        aio_offset := offs
        aio_nbytes := buf2.len
        aio_buf := buf2.addr
        aio_lio_opcode := opcode.toInt }
    mutable := false
    in_progress := false
    buffer := Buffer.bytes buf2 }

/-- AioCb::from_bytes_mut: takes ownership of a uniquely owned BytesMut
buffer; same small-buffer reallocation as from_bytes, but marked mutable. -/
def from_bytes_mut (fd : Int) (offs : Int) (buf : Bytes) (prio : Int)
    (sigev_notify : Nat) (opcode : LioOpcode) (freshAddr : Nat) : AioCb :=
  let buf2 := realloc_small buf freshAddr
  let a := common_init fd prio sigev_notify
  { aiocb :=
      { a with
        aio_offset := offs
        aio_nbytes := buf2.len
        aio_buf := buf2.addr
        aio_lio_opcode := opcode.toInt }
    mutable := true
    in_progress := false
    buffer := Buffer.bytesMut buf2 }

/-- AioCb::from_mut_ptr: unsafe constructor from a mutable raw pointer and a
length; marked mutable, owns no buffer. -/
def from_mut_ptr (fd : Int) (offs : Int) (buf : Nat) (len : Nat) (prio : Int)
    (sigev_notify : Nat) (opcode : LioOpcode) : AioCb :=
  let a := common_init fd prio sigev_notify
  { aiocb :=
      { a with
        aio_offset := offs
        aio_nbytes := len
        aio_buf := buf
        aio_lio_opcode := opcode.toInt }
    mutable := true
    in_progress := false
    buffer := Buffer.none }

/-- AioCb::from_ptr: unsafe constructor from a const raw pointer and a
length; marked immutable, owns no buffer. -/
def from_ptr (fd : Int) (offs : Int) (buf : Nat) (len : Nat) (prio : Int)
    (sigev_notify : Nat) (opcode : LioOpcode) : AioCb :=
  let a := common_init fd prio sigev_notify
  { aiocb :=
      { a with
        aio_offset := offs
        aio_nbytes := len
        aio_buf := buf
        aio_lio_opcode := opcode.toInt }
    mutable := false
    in_progress := false
    buffer := Buffer.none }

/-- AioCb::from_slice: borrows a const slice.  The source asserts that the
opcode is not LIO_READ before storing it; the panic of that assert is
modelled as Option.none. -/
def from_slice (fd : Int) (offs : Int) (buf : Slice) (prio : Int)
    (sigev_notify : Nat) (opcode : LioOpcode) : Option AioCb :=
  if opcode = LioOpcode.LIO_READ then Option.none
  else
    let a := common_init fd prio sigev_notify
    Option.some
      { aiocb :=
          { a with
            aio_offset := offs
            aio_nbytes := buf.data.length
            aio_buf := buf.addr
            aio_lio_opcode := opcode.toInt }
        mutable := false
        in_progress := false
        buffer := Buffer.none }

/-- Errno::result: a native return value of -1 means the OS reported the
error in errno; any other value is success carrying that value. -/
def Errno.result (value : Int) (errno : Nat) : Except Nat Int :=
  if value = -1 then Except.error errno else Except.ok value

/-- AioCb::buffer, named extract_buffer in the spec: asserts the request is
not in progress (panic modelled as Option.none), then swaps the owned Buffer
for Buffer.none and returns the original together with the updated request. -/
def AioCb.extract_buffer (cb : AioCb) : Option (Buffer × AioCb) :=
  if cb.in_progress then Option.none
  else Option.some (cb.buffer, { cb with buffer := Buffer.none })

/-- AioCb::read: asserts the buffer is mutable (panic modelled as
Option.none, taken before the native call is consulted); otherwise performs
the native aio_read, whose return value is the parameter ret, and sets the
in-flight flag exactly when that call succeeds. -/
def AioCb.read (cb : AioCb) (ret : Int) (errno : Nat) :
    Option (Except Nat Unit × AioCb) :=
  if cb.mutable then
    Option.some (match Errno.result ret errno with
      | Except.ok _ => (Except.ok (), { cb with in_progress := true })
      | Except.error e => (Except.error e, cb))
  else Option.none

/-- AioCb::write: performs the native aio_write and sets the in-flight flag
exactly when that call succeeds; no mutability requirement. -/
def AioCb.write (cb : AioCb) (ret : Int) (errno : Nat) :
    Except Nat Unit × AioCb :=
  match Errno.result ret errno with
  | Except.ok _ => (Except.ok (), { cb with in_progress := true })
  | Except.error e => (Except.error e, cb)

/-- AioCb::fsync: performs the native aio_fsync with the given mode and sets
the in-flight flag exactly when that call succeeds. -/
def AioCb.fsync (cb : AioCb) (mode : AioFsyncMode) (ret : Int) (errno : Nat) :
    Except Nat Unit × AioCb :=
  match mode, Errno.result ret errno with
  | _, Except.ok _ => (Except.ok (), { cb with in_progress := true })
  | _, Except.error e => (Except.error e, cb)

/-- AioCb::error, named poll_error in the spec: 0 is success, a positive
value is that error code, -1 consults errno, and any other value hits the
panic arm (Option.none). -/
def AioCb.error (cb : AioCb) (ret : Int) (errno : Nat) :
    Option (Except Nat Unit) :=
  if ret = 0 then Option.some (Except.ok ())
  else if 0 < ret then Option.some (Except.error ret.toNat)
  else if ret = -1 then Option.some (Except.error errno)
  else Option.none

/-- AioCb::aio_return, named collect_result in the spec: unconditionally
clears the in-flight flag and returns Errno.result of the native aio_return
value.  The source contains no assertion here. -/
def AioCb.aio_return (cb : AioCb) (ret : Int) (errno : Nat) :
    Except Nat Int × AioCb :=
  (Errno.result ret errno, { cb with in_progress := false })

/-- AioCb::cancel: matches on the native aio_cancel return value; the three
enumerated codes give the tri-state result, -1 gives the errno error, and an
unrecognized code hits the panic arm (Option.none). -/
def AioCb.cancel (cb : AioCb) (ret : Int) (errno : Nat) :
    Option (Except Nat AioCancelStat) :=
  if ret = libc_AIO_CANCELED then Option.some (Except.ok AioCancelStat.AioCanceled)
  else if ret = libc_AIO_NOTCANCELED then Option.some (Except.ok AioCancelStat.AioNotCanceled)
  else if ret = libc_AIO_ALLDONE then Option.some (Except.ok AioCancelStat.AioAllDone)
  else if ret = -1 then Option.some (Except.error errno)
  else Option.none

/-- aio_cancel_all: same match on the native aio_cancel return value, issued
with a null aiocb pointer so every request on the descriptor is cancelled. -/
def aio_cancel_all (fd : Int) (ret : Int) (errno : Nat) :
    Option (Except Nat AioCancelStat) :=
  if ret = libc_AIO_CANCELED then Option.some (Except.ok AioCancelStat.AioCanceled)
  else if ret = libc_AIO_NOTCANCELED then Option.some (Except.ok AioCancelStat.AioNotCanceled)
  else if ret = libc_AIO_ALLDONE then Option.some (Except.ok AioCancelStat.AioAllDone)
  else if ret = -1 then Option.some (Except.error errno)
  else Option.none

/-- AioCb::lio_opcode accessor: recovers the LioOpcode variant from the
stored native opcode field, or Option.none when the stored value is not one
of the three enumerated codes. -/
def AioCb.lio_opcode (cb : AioCb) : Option LioOpcode :=
  if cb.aiocb.aio_lio_opcode = libc_LIO_READ then Option.some LioOpcode.LIO_READ
  else if cb.aiocb.aio_lio_opcode = libc_LIO_WRITE then Option.some LioOpcode.LIO_WRITE
  else if cb.aiocb.aio_lio_opcode = libc_LIO_NOP then Option.some LioOpcode.LIO_NOP
  else Option.none

/-- impl Drop for AioCb: asserts the request is not in progress; the panic
of the assert is modelled as Option.none, successful destruction as
Option.some. -/
def AioCb.drop (cb : AioCb) : Option Unit :=
  if cb.in_progress then Option.none else Option.some ()

/-- C1 counterexample: calling aio_return on a request whose in-flight flag
is already clear, as after an earlier collection, is NOT fatal.  The source
of aio_return contains no assertion, so the call is silently repeated and
returns a second normal result, contradicting the claim that a second call
terminates execution fatally. -/
theorem C1_counterexample :
    (AioCb.aio_return ((from_fd 3 0 0).aio_return 5 0).2 5 0).1 = Except.ok 5 := by
  rfl

/-- C1 (amended): aio_return unconditionally clears the in-flight flag and
returns the Errno.result of the native aio_return value, the number of bytes
transferred or an error.  The precondition that it be called only once, after
poll_error reports a terminal state, is a documented caller obligation that
the code does not check: no assertion guards the call. -/
theorem C1_aio_return_clears_flag (cb : AioCb) (ret : Int) (errno : Nat) :
    (cb.aio_return ret errno).2 = { cb with in_progress := false } ∧
    (cb.aio_return ret errno).2.in_progress = false ∧
    (cb.aio_return ret errno).1 = Errno.result ret errno :=
  ⟨rfl, rfl, rfl⟩

/-- C2: for read on a mutable request, for write and for fsync, each
submitted from an idle request: a native failure (return value -1) is
surfaced as a recoverable Except.error carrying the errno and the request is
returned unchanged, so its in-flight flag is still false; the in-flight flag
becomes true exactly when the native call succeeds. -/
theorem C2_submission_errors (cb : AioCb) (mode : AioFsyncMode) (ret : Int)
    (errno : Nat) (hidle : cb.in_progress = false) (hmut : cb.mutable = true) :
    (ret = -1 →
      cb.read ret errno = Option.some (Except.error errno, cb) ∧
      cb.write ret errno = (Except.error errno, cb) ∧
      cb.fsync mode ret errno = (Except.error errno, cb) ∧
      (cb.write ret errno).2.in_progress = false ∧
      (cb.fsync mode ret errno).2.in_progress = false) ∧
    (ret ≠ -1 →
      cb.read ret errno = Option.some (Except.ok (), { cb with in_progress := true }) ∧
      cb.write ret errno = (Except.ok (), { cb with in_progress := true }) ∧
      cb.fsync mode ret errno = (Except.ok (), { cb with in_progress := true })) := by
  constructor
  · intro h
    subst h
    simp [AioCb.read, AioCb.write, AioCb.fsync, Errno.result, hmut, hidle]
  · intro h
    simp [AioCb.read, AioCb.write, AioCb.fsync, Errno.result, hmut, h]

/-- C2 witness: a concrete idle mutable request submitted for write with a
failing native call returns the error and the unchanged request. -/
theorem C2_witness :
    (from_mut_slice 4 0 { addr := 1000, data := [1, 2, 3] } 0 0 LioOpcode.LIO_NOP).write (-1) 9 =
      (Except.error 9,
       from_mut_slice 4 0 { addr := 1000, data := [1, 2, 3] } 0 0 LioOpcode.LIO_NOP) :=
  ((C2_submission_errors _ AioFsyncMode.O_SYNC (-1) 9 rfl rfl).1 rfl).2.1

/-- C3: read on a request whose mutable flag is false panics (the assert,
modelled as Option.none) for every native return value, i.e. before the
native call is consulted; with the flag true the read proceeds and marks the
request in-flight exactly when the native call succeeds. -/
theorem C3_read_requires_mutable (cb : AioCb) (ret : Int) (errno : Nat) :
    (cb.mutable = false → cb.read ret errno = Option.none) ∧
    (cb.mutable = true →
      cb.read ret errno = Option.some
        (if ret = -1 then (Except.error errno, cb)
         else (Except.ok (), { cb with in_progress := true }))) := by
  constructor
  · intro h
    simp [AioCb.read, h]
  · intro h
    by_cases hr : ret = -1 <;> simp [AioCb.read, Errno.result, h, hr]

/-- C3 witness: a concrete request built over an immutable buffer, here one
from from_fd, fails fatally on read. -/
theorem C3_witness :
    (from_fd 3 0 0).read 0 0 = Option.none :=
  (C3_read_requires_mutable (from_fd 3 0 0) 0 0).1 rfl

/-- Helper: a buffer shorter than the threshold is reallocated to a fresh
capacity-64 buffer holding a copy of the data. -/
theorem realloc_small_of_lt (buf : Bytes) (freshAddr : Nat) (h : buf.len < 64) :
    realloc_small buf freshAddr = { addr := freshAddr, cap := 64, data := buf.data } := by
  have h' : buf.data.length < 64 := h
  rw [realloc_small, if_pos h]
  simp [Bytes.with_capacity, Bytes.extend_from_slice]
  omega

/-- Helper: a buffer at or above the threshold is kept as is. -/
theorem realloc_small_of_ge (buf : Bytes) (freshAddr : Nat) (h : ¬buf.len < 64) :
    realloc_small buf freshAddr = buf := by
  rw [realloc_small, if_neg h]

/-- Helper: reallocation preserves the buffer length. -/
theorem realloc_small_len (buf : Bytes) (freshAddr : Nat) :
    (realloc_small buf freshAddr).len = buf.len := by
  by_cases h : buf.len < 64
  · rw [realloc_small_of_lt buf freshAddr h]
    simp [Bytes.len]
  · rw [realloc_small_of_ge buf freshAddr h]

/-- C4: for an owned buffer shorter than 64 bytes, from_bytes and
from_bytes_mut reallocate into a fresh buffer of capacity 64 (which is at
least the 64-byte threshold) at the fresh out-of-line address, copying the
contents, and capture that fresh address in aio_buf; a buffer of length 64
or more is captured in place, address included.  In both cases the stored
buffer contents and aio_nbytes equal the original contents and length. -/
theorem C4_small_buffer_reallocation (fd : Int) (offs : Int) (buf : Bytes)
    (prio : Int) (sigev : Nat) (opcode : LioOpcode) (freshAddr : Nat) :
    (buf.len < 64 →
      (from_bytes fd offs buf prio sigev opcode freshAddr).buffer =
          Buffer.bytes { addr := freshAddr, cap := 64, data := buf.data } ∧
      (from_bytes_mut fd offs buf prio sigev opcode freshAddr).buffer =
          Buffer.bytesMut { addr := freshAddr, cap := 64, data := buf.data } ∧
      (from_bytes fd offs buf prio sigev opcode freshAddr).aiocb.aio_buf = freshAddr ∧
      (from_bytes_mut fd offs buf prio sigev opcode freshAddr).aiocb.aio_buf = freshAddr) ∧
    (64 ≤ buf.len →
      (from_bytes fd offs buf prio sigev opcode freshAddr).buffer = Buffer.bytes buf ∧
      (from_bytes_mut fd offs buf prio sigev opcode freshAddr).buffer = Buffer.bytesMut buf ∧
      (from_bytes fd offs buf prio sigev opcode freshAddr).aiocb.aio_buf = buf.addr ∧
      (from_bytes_mut fd offs buf prio sigev opcode freshAddr).aiocb.aio_buf = buf.addr) ∧
    (from_bytes fd offs buf prio sigev opcode freshAddr).aiocb.aio_nbytes = buf.len ∧
    (from_bytes_mut fd offs buf prio sigev opcode freshAddr).aiocb.aio_nbytes = buf.len := by
  refine ⟨fun h => ?_, fun h64 => ?_, ?_, ?_⟩
  · simp [from_bytes, from_bytes_mut, realloc_small_of_lt buf freshAddr h]
  · have h : ¬buf.len < 64 := by omega
    simp [from_bytes, from_bytes_mut, realloc_small_of_ge buf freshAddr h]
  · simp [from_bytes, realloc_small_len]
  · simp [from_bytes_mut, realloc_small_len]

/-- C4 witness: a concrete three-byte Bytes buffer is copied into a fresh
capacity-64 buffer at the fresh address. -/
theorem C4_witness :
    (from_bytes 3 0 { addr := 100, cap := 10, data := [7, 8, 9] } 0 0
        LioOpcode.LIO_NOP 777).buffer =
      Buffer.bytes { addr := 777, cap := 64, data := [7, 8, 9] } :=
  ((C4_small_buffer_reallocation 3 0 { addr := 100, cap := 10, data := [7, 8, 9] }
      0 0 LioOpcode.LIO_NOP 777).1 (by decide)).1

/-- C5: extract_buffer is fatal (the assert, modelled as Option.none) when
the request is in flight; otherwise it returns exactly the stored buffer
variant, leaves Buffer.none in its place, and a second extraction on the
result yields the Buffer.none variant. -/
theorem C5_extract_buffer_spec (cb : AioCb) :
    (cb.in_progress = true → cb.extract_buffer = Option.none) ∧
    (cb.in_progress = false →
      cb.extract_buffer = Option.some (cb.buffer, { cb with buffer := Buffer.none }) ∧
      ({ cb with buffer := Buffer.none } : AioCb).extract_buffer =
        Option.some (Buffer.none, { cb with buffer := Buffer.none })) := by
  constructor
  · intro h
    simp [AioCb.extract_buffer, h]
  · intro h
    constructor <;> simp [AioCb.extract_buffer, h]

/-- C5 witness: a concrete in-flight request fails fatally on
extract_buffer. -/
theorem C5_witness :
    ({ from_fd 3 0 0 with in_progress := true } : AioCb).extract_buffer = Option.none :=
  (C5_extract_buffer_spec { from_fd 3 0 0 with in_progress := true }).1 rfl

/-- C6: dropping a request whose in-flight flag is true hits the destructor
assert (fatal, modelled as Option.none); dropping with the flag false
succeeds. -/
theorem C6_drop_in_flight_fatal (cb : AioCb) :
    (cb.in_progress = true → cb.drop = Option.none) ∧
    (cb.in_progress = false → cb.drop = Option.some ()) := by
  constructor <;> intro h <;> simp [AioCb.drop, h]

/-- C6 witness: a concrete in-flight request fails fatally when dropped. -/
theorem C6_witness :
    ({ from_fd 3 0 0 with in_progress := true } : AioCb).drop = Option.none :=
  (C6_drop_in_flight_fatal { from_fd 3 0 0 with in_progress := true }).1 rfl

/-- C7: AioCb::cancel and aio_cancel_all map each of the three enumerated
native codes to the corresponding tri-state result, map -1 to the errno
error, and panic (Option.none) on every other native return value instead of
defaulting it to a generic error. -/
theorem C7_cancel_return_codes (cb : AioCb) (fd : Int) (ret : Int) (errno : Nat) :
    (ret = libc_AIO_CANCELED →
      cb.cancel ret errno = Option.some (Except.ok AioCancelStat.AioCanceled) ∧
      aio_cancel_all fd ret errno = Option.some (Except.ok AioCancelStat.AioCanceled)) ∧
    (ret = libc_AIO_NOTCANCELED →
      cb.cancel ret errno = Option.some (Except.ok AioCancelStat.AioNotCanceled) ∧
      aio_cancel_all fd ret errno = Option.some (Except.ok AioCancelStat.AioNotCanceled)) ∧
    (ret = libc_AIO_ALLDONE →
      cb.cancel ret errno = Option.some (Except.ok AioCancelStat.AioAllDone) ∧
      aio_cancel_all fd ret errno = Option.some (Except.ok AioCancelStat.AioAllDone)) ∧
    (ret = -1 →
      cb.cancel ret errno = Option.some (Except.error errno) ∧
      aio_cancel_all fd ret errno = Option.some (Except.error errno)) ∧
    (ret ≠ libc_AIO_CANCELED → ret ≠ libc_AIO_NOTCANCELED → ret ≠ libc_AIO_ALLDONE →
      ret ≠ -1 →
      cb.cancel ret errno = Option.none ∧
      aio_cancel_all fd ret errno = Option.none) := by
  refine ⟨fun h => ?_, fun h => ?_, fun h => ?_, fun h => ?_, fun h1 h2 h3 h4 => ?_⟩ <;>
    first
      | (subst h
         simp [AioCb.cancel, aio_cancel_all,
               libc_AIO_CANCELED, libc_AIO_NOTCANCELED, libc_AIO_ALLDONE])
      | simp [AioCb.cancel, aio_cancel_all, h1, h2, h3, h4]

/-- C7 witness: native code 1 (AIO_NOTCANCELED on Linux) maps to the
not-fully-canceled result for both the per-request and the descriptor-wide
cancel. -/
theorem C7_witness :
    (from_fd 3 0 0).cancel 1 0 = Option.some (Except.ok AioCancelStat.AioNotCanceled) ∧
    aio_cancel_all 3 1 0 = Option.some (Except.ok AioCancelStat.AioNotCanceled) :=
  (C7_cancel_return_codes (from_fd 3 0 0) 3 1 0).2.1 rfl

/-- C9: requests built by from_mut_ptr, from_ptr and (when its assert
passes) from_slice store the Buffer.none ownership variant, so extracting
the buffer from such an idle request yields the Buffer.none variant even
though memory is associated with the operation; only from_mut_slice stores
the Buffer.phantom borrowed-reference marker. -/
theorem C9_borrowed_and_raw_store_none (fd : Int) (offs : Int) (s : Slice)
    (p : Nat) (len : Nat) (prio : Int) (sigev : Nat) (op : LioOpcode) :
    ((from_mut_ptr fd offs p len prio sigev op).buffer = Buffer.none ∧
     (from_mut_ptr fd offs p len prio sigev op).extract_buffer =
       Option.some (Buffer.none, from_mut_ptr fd offs p len prio sigev op)) ∧
    ((from_ptr fd offs p len prio sigev op).buffer = Buffer.none ∧
     (from_ptr fd offs p len prio sigev op).extract_buffer =
       Option.some (Buffer.none, from_ptr fd offs p len prio sigev op)) ∧
    (∀ cb, from_slice fd offs s prio sigev op = Option.some cb →
      cb.buffer = Buffer.none ∧
      cb.extract_buffer = Option.some (Buffer.none, cb)) ∧
    (from_mut_slice fd offs s prio sigev op).buffer = Buffer.phantom := by
  refine ⟨⟨rfl, ?_⟩, ⟨rfl, ?_⟩, fun cb hcb => ?_, rfl⟩
  · simp [AioCb.extract_buffer, from_mut_ptr]
  · simp [AioCb.extract_buffer, from_ptr]
  · by_cases hop : op = LioOpcode.LIO_READ
    · rw [from_slice, if_pos hop] at hcb
      exact absurd hcb (by simp)
    · rw [from_slice, if_neg hop] at hcb
      cases hcb
      constructor
      · rfl
      · simp [AioCb.extract_buffer]

/-- C9 witness: a concrete from_slice request with a write opcode is
constructed with the Buffer.none variant. -/
theorem C9_witness :
    Option.map AioCb.buffer
        (from_slice 3 0 { addr := 500, data := [1, 2] } 0 0 LioOpcode.LIO_WRITE) =
      Option.some Buffer.none := by
  have h := (C9_borrowed_and_raw_store_none 3 0 { addr := 500, data := [1, 2] }
      0 0 0 0 LioOpcode.LIO_WRITE).2.2.1
  cases hcb : from_slice 3 0 { addr := 500, data := [1, 2] } 0 0 LioOpcode.LIO_WRITE with
  | none => exact absurd hcb (by decide)
  | some cb => simp [hcb, (h cb hcb).1]

/-- C10: the lio_opcode accessor is total and non-fatal: it returns the
corresponding variant when the stored native opcode is one of the LIO_READ,
LIO_WRITE and LIO_NOP codes, and Option.none, not a panic, for every other
stored value. -/
theorem C10_lio_opcode_total (cb : AioCb) :
    (cb.aiocb.aio_lio_opcode = libc_LIO_READ →
      cb.lio_opcode = Option.some LioOpcode.LIO_READ) ∧
    (cb.aiocb.aio_lio_opcode = libc_LIO_WRITE →
      cb.lio_opcode = Option.some LioOpcode.LIO_WRITE) ∧
    (cb.aiocb.aio_lio_opcode = libc_LIO_NOP →
      cb.lio_opcode = Option.some LioOpcode.LIO_NOP) ∧
    (cb.aiocb.aio_lio_opcode ≠ libc_LIO_READ →
      cb.aiocb.aio_lio_opcode ≠ libc_LIO_WRITE →
      cb.aiocb.aio_lio_opcode ≠ libc_LIO_NOP →
      cb.lio_opcode = Option.none) := by
  refine ⟨fun h => ?_, fun h => ?_, fun h => ?_, fun h1 h2 h3 => ?_⟩ <;>
    simp_all [AioCb.lio_opcode, libc_LIO_READ, libc_LIO_WRITE, libc_LIO_NOP]

/-- C10 witness: a stored opcode of 99 is not one of the three enumerated
codes, and lio_opcode returns Option.none for it. -/
theorem C10_witness :
    AioCb.lio_opcode
        { aiocb := { common_init 3 0 0 with aio_lio_opcode := 99 }
          mutable := false
          in_progress := false
          buffer := Buffer.none } = Option.none :=
  (C10_lio_opcode_total
      { aiocb := { common_init 3 0 0 with aio_lio_opcode := 99 }
        mutable := false
        in_progress := false
        buffer := Buffer.none }).2.2.2 (by decide) (by decide) (by decide)

end NixAio
